import Mathlib

/-!
Shallow embedding of the asynchronous HTTP stress tester in `src/dos.py`,
together with theorems settling the frozen claims about it.

Modelling conventions:
* The network is an oracle: each transport-level try of an HTTP request is a
  `TransportResult` (a received response with its measured wall-clock latency,
  or one of the exception classes the source distinguishes).  Random
  user-agent / proxy selection and the aiohttp session plumbing influence only
  which `TransportResult` occurs, so they are absorbed into the oracle.
* Python exceptions are the explicit `Except` monad; latencies are `ℚ`.
* The shared-state histograms (`defaultdict(int)`) are modelled as multisets
  of recorded keys (Lean lists); the histogram of counts is derived from them.
  The `asyncio.Lock` makes every record operation atomic, so the aggregate
  counts are independent of task interleaving and the dispatch loop is
  sequentialised as a fold.
-/

namespace DoS

/-- Outcome of one transport-level try of an HTTP request, as the source's
exception handlers distinguish them (src/dos.py lines 110-129):
a received response (any status, with the wall-clock latency from request
start to response received), `asyncio.TimeoutError`,
`aiohttp.ClientConnectorError`, any other `aiohttp.ClientError`, or any
other `Exception`. -/
inductive TransportResult where
  | response (status : Nat) (latency : ℚ)
  | raiseTimeout
  | raiseConnector (desc : String)
  | raiseClientError (desc : String)
  | raiseOther (desc : String)
deriving DecidableEq

/-- Python exceptions that can escape a call, for the retry decorator's
`retry_if_exception_type(aiohttp.ClientError)` test.  `ClientConnectorError`
is a subclass of `aiohttp.ClientError`; `asyncio.TimeoutError` is not.
`retryError` is tenacity's `RetryError` raised when the stop condition is
reached. -/
inductive PyExn where
  | timeoutExn
  | connectorExn (desc : String)
  | clientExn (desc : String)
  | otherExn (desc : String)
  | retryError
deriving DecidableEq

/-- `retry_if_exception_type(aiohttp.ClientError)` (src/dos.py line 104). -/
def isClientError : PyExn → Bool
  | .connectorExn _ => true
  | .clientExn _ => true
  | _ => false

/-- The shared mutable state of `StressTester` (src/dos.py lines 68-72):
`stats['status_codes']` and `stats['errors']` are kept as the multiset of
recorded keys (one list element per recorded outcome); `latencies` is the
list of successful-attempt latencies in completion order. -/
structure Stats where
  status_codes : List Nat
  errors : List String
  latencies : List ℚ
deriving DecidableEq

/-- Fresh statistics, as set up in `StressTester.__init__`. -/
def emptyStats : Stats := ⟨[], [], []⟩

/-- The immutable run configuration (spec `RunConfig`): the fields of
`StressTester.__init__` (src/dos.py lines 58-67). -/
structure RunConfig where
  url : String
  totalAttempts : Nat
  concurrencyLimit : Nat
  timeout : Nat
  method : String
  data : String
  proxies : List String
  validateProxies : Bool

/-- Body of `StressTester.send_request` (src/dos.py lines 105-129): executes
one transport try and records exactly one outcome.  Every exception raised by
the HTTP execution is caught by one of the three handlers
(`except asyncio.TimeoutError`, `except ClientConnectorError`,
`except Exception`), so the body always returns normally: the `Except` layer
is what the surrounding tenacity decorator observes. -/
def send_request_body (s : Stats) : TransportResult → Except PyExn Stats
  | .response code lat =>
      .ok { s with latencies := s.latencies ++ [lat],
                   status_codes := s.status_codes ++ [code] }
  | .raiseTimeout =>
      .ok { s with errors := s.errors ++ ["Timeout"] }
  | .raiseConnector d =>
      .ok { s with errors := s.errors ++ [d] }
  | .raiseClientError d =>
      .ok { s with errors := s.errors ++ [d] }
  | .raiseOther d =>
      .ok { s with errors := s.errors ++ [d] }

/-- Backoff of `wait_exponential(multiplier=1, min=2, max=10)` after the
`n`-th completed attempt (src/dos.py line 103): `1 * 2 ^ n` clamped into
`[2, 10]`, i.e. 2s, 4s, 8s, 10s, 10s, ... -/
def backoffWait (n : Nat) : Nat := min 10 (max 2 (2 ^ n))

/-- Tenacity's retry driver for
`@retry(stop=stop_after_attempt(3), wait=wait_exponential(...),
retry=retry_if_exception_type(aiohttp.ClientError))` (src/dos.py lines
103-104).  `n` is the 1-based attempt number, `remaining` the attempts the
stop condition still allows.  It calls the wrapped body on the next transport
try; if the call raises an `aiohttp.ClientError` it sleeps the backoff and
retries, until the stop condition raises `RetryError`.  Returns the final
result, the number of body calls made, and the list of backoff sleeps. -/
def tenacityDrive (tries : Nat → TransportResult) (s : Stats) :
    Nat → Nat → Except PyExn Stats × Nat × List Nat
  | _, 0 => (.error .retryError, 0, [])
  | n, remaining + 1 =>
      match send_request_body s (tries n) with
      | .ok s' => (.ok s', 1, [])
      | .error e =>
          if isClientError e then
            if remaining = 0 then (.error .retryError, 1, [])
            else
              let rest := tenacityDrive tries s (n + 1) remaining
              (rest.1, rest.2.1 + 1, backoffWait n :: rest.2.2)
          else (.error e, 1, [])

/-- The decorated `StressTester.send_request`: the tenacity driver applied to
the body, with `stop_after_attempt(3)`.  Yields the result seen by the
caller, the number of transport tries consumed, and the backoff sleeps
performed. -/
def send_request (s : Stats) (tries : Nat → TransportResult) :
    Except PyExn Stats × Nat × List Nat :=
  tenacityDrive tries s 1 3

/-- `StressTester.run` (src/dos.py lines 131-147), dispatch part: creates
`total_requests` tasks, each of which awaits `send_request` under the
semaphore; `asyncio.gather(..., return_exceptions=True)` collects and drops
any exception a task raises, recording nothing for it.  Aggregate counts are
interleaving-independent (every record is under `self.lock`), so the
dispatch is sequentialised: task `i` draws its transport tries from
`transport i`. -/
def run (cfg : RunConfig) (transport : Nat → Nat → TransportResult) : Stats :=
  (List.range cfg.totalAttempts).foldl
    (fun s i =>
      match send_request s (transport i) with
      | (.ok s', _, _) => s'
      | (.error _, _, _) => s)
    emptyStats

/-- The status-code histogram `dict(status_code → count)` derived from the
multiset of recorded codes: one entry per distinct code. -/
def statusHistogram (s : Stats) : List (Nat × Nat) :=
  s.status_codes.dedup.map (fun c => (c, s.status_codes.count c))

/-- The error histogram `dict(error_description → count)` derived from the
multiset of recorded error keys. -/
def errorHistogram (s : Stats) : List (String × Nat) :=
  s.errors.dedup.map (fun e => (e, s.errors.count e))

/-- Sum of the counts of a histogram (`sum(d.values())`). -/
def sumCounts {α : Type} (h : List (α × Nat)) : Nat :=
  (h.map Prod.snd).sum

/-- Ascending sort of the latencies (`sorted(self.latencies)`). -/
def sortLats (l : List ℚ) : List ℚ := List.insertionSort (· ≤ ·) l

/-- `StressTester._percentile` (src/dos.py lines 175-180): returns 0.0 when no
latencies are recorded; otherwise sorts ascending, takes
`index = int(len(sorted) * percentile / 100)` (truncating division of
non-negative integers, i.e. `Nat` floor division) and returns
`sorted[index]` when in range, `sorted[-1]` otherwise. -/
def percentileOf (lats : List ℚ) (p : Nat) : ℚ :=
  if lats.isEmpty then 0
  else
    let sorted := sortLats lats
    let index := sorted.length * p / 100
    if index < sorted.length then sorted.getD index 0
    else sorted.getD (sorted.length - 1) 0

/-- Modelled from the spec's words, for comparison with `percentileOf`:
sort ascending, index `floor(count * p / 100)` clamped to `count - 1`, value
at that index; 0 when no latencies recorded. -/
def percentileSpec (lats : List ℚ) (p : Nat) : ℚ :=
  if lats.isEmpty then 0
  else (sortLats lats).getD (min (lats.length * p / 100) (lats.length - 1)) 0

/-- Result of the single probe GET a proxy validation issues: a received
response with its status, or any exception (timeout, connection error, ...)
caught by the `except Exception` handler. -/
inductive ProbeResult where
  | response (status : Nat)
  | exn (desc : String)
deriving DecidableEq

/-- A GET request as issued by `validate_proxy` (src/dos.py lines 76-78):
`session.get(test_url, proxy=proxy, timeout=10)`. -/
structure ProbeRequest where
  url : String
  proxy : String
  timeout : Nat
deriving DecidableEq

/-- The probe request `validate_proxy` issues for a candidate proxy: one GET
to the fixed test URL through the proxy with the fixed 10-second timeout. -/
def probeRequest (proxy : String) : ProbeRequest :=
  { url := "http://httpbin.org/ip", proxy := proxy, timeout := 10 }

/-- `StressTester.validate_proxy` (src/dos.py lines 75-87): issues its single
probe and returns `True` iff the response status is 200; any non-200 status,
or any exception, yields `False` (a warning is logged; no retry). -/
def validate_proxy (probe : ProbeRequest → ProbeResult) (proxy : String) : Bool :=
  match probe (probeRequest proxy) with
  | .response status => status == 200
  | .exn _ => false

/-- `StressTester.validate_proxies_async` (src/dos.py lines 89-101): probes
every candidate concurrently, then walks `zip(self.proxies, results)` in
order appending the candidates whose probe validated. -/
def validate_proxies_async (probe : ProbeRequest → ProbeResult)
    (proxies : List String) : List String :=
  (proxies.map (fun p => (p, validate_proxy probe p))).foldl
    (fun acc pr => if pr.2 then acc ++ [pr.1] else acc) []

/-! ### Configuration resolution (`parse_args`, `load_config`, `main`) -/

/-- The command line as the user supplied it: `url` is a required positional
argument (argparse refuses a command line without it); each optional flag is
`none` when omitted; `--validate-proxies` is a `store_true` flag. -/
structure CliInput where
  url : String
  threads : Option Nat
  requests : Option Nat
  timeout : Option Nat
  method : Option String
  data : Option String
  proxies : Option (List String)
  log_file : Option String
  validate_proxies : Bool

/-- The namespace `parse_args` returns (src/dos.py lines 21-33): argparse has
substituted each flag's default (`threads=100`, `requests=1000`, `timeout=5`,
`method="GET"`, `data=""`, `proxies=[]`, `log_file="stress_test.log"`). -/
structure CliArgs where
  url : String
  threads : Nat
  requests : Nat
  timeout : Nat
  method : String
  data : String
  proxies : List String
  log_file : String
  validate_proxies : Bool

/-- `parse_args` (src/dos.py lines 21-33) applied to a command line:
substitutes the argparse defaults for omitted flags. -/
def parse_args (c : CliInput) : CliArgs :=
  { url := c.url
    threads := c.threads.getD 100
    requests := c.requests.getD 1000
    timeout := c.timeout.getD 5
    method := c.method.getD "GET"
    data := c.data.getD ""
    proxies := c.proxies.getD []
    log_file := c.log_file.getD "stress_test.log"
    validate_proxies := c.validate_proxies }

/-- The JSON configuration file as a partial mapping: `config.get(key)` is
`none` when the key is absent. -/
structure ConfigFile where
  url : Option String
  threads : Option Nat
  requests : Option Nat
  timeout : Option Nat
  method : Option String
  data : Option String
  proxies : Option (List String)
  log_file : Option String
  validate_proxies : Option Bool

/-- The empty configuration (no config file given, or `load_config` failed
and returned `{}`). -/
def emptyConfigFile : ConfigFile :=
  ⟨none, none, none, none, none, none, none, none, none⟩

/-- Python `a or b` for an `int`: `a` unless it is falsy (zero). -/
def pyOrNat (a b : Nat) : Nat := if a = 0 then b else a

/-- Python `a or b` for a `str`: `a` unless it is falsy (empty). -/
def pyOrStr (a b : String) : String := if a = "" then b else a

/-- Python `a or b` for a `list`: `a` unless it is falsy (empty). -/
def pyOrList (a b : List String) : List String := if a = [] then b else a

/-- Python `a or b` for a `bool`. -/
def pyOrBool (a b : Bool) : Bool := a || b

/-- The configuration `main` resolves (src/dos.py lines 191-199) before the
missing-URL check; `url` keeps Python's `None`-ability. -/
structure ResolvedConfig where
  url : Option String
  threads : Nat
  requests : Nat
  timeout : Nat
  method : String
  data : String
  proxies : List String
  log_file : String
  validate_proxies : Bool

/-- `url = args.url or config.get("url")` (src/dos.py line 191). -/
def resolveUrl (args : CliArgs) (cfg : ConfigFile) : Option String :=
  if args.url = "" then cfg.url else some args.url

/-- The resolution block of `main` (src/dos.py lines 191-199), one Python
`or` per key with the documented `config.get` defaults. -/
def resolveConfig (args : CliArgs) (cfg : ConfigFile) : ResolvedConfig :=
  { url := resolveUrl args cfg
    threads := pyOrNat args.threads (cfg.threads.getD 100)
    requests := pyOrNat args.requests (cfg.requests.getD 1000)
    timeout := pyOrNat args.timeout (cfg.timeout.getD 5)
    method := pyOrStr args.method (cfg.method.getD "GET")
    data := pyOrStr args.data (cfg.data.getD "")
    proxies := pyOrList args.proxies (cfg.proxies.getD [])
    log_file := pyOrStr args.log_file (cfg.log_file.getD "stress_test.log")
    validate_proxies := pyOrBool args.validate_proxies (cfg.validate_proxies.getD false) }

/-- Modelled from the claim's words, for comparison with `resolveConfig`:
the resolved `threads` is the CLI-supplied value when one is given, and
otherwise the config-file value, falling back to the documented default 100
when absent from both. -/
def specResolveThreads (cli : CliInput) (cfg : ConfigFile) : Nat :=
  match cli.threads with
  | some t => t
  | none => cfg.threads.getD 100

/-- Python truthiness of the resolved url: `if not url:` fires on `None`
and on the empty string (src/dos.py line 201). -/
def urlFalsy : Option String → Bool
  | none => true
  | some s => s = ""

/-- The orchestrator states of the spec's state machine that the embedding
distinguishes. -/
inductive RunState where
  | Idle
  | Aborted
  | Done
deriving DecidableEq

/-- What a whole invocation of `main` did: the final orchestrator state, how
many dispatcher tasks were created, and the final statistics (`none` when
the run aborted before constructing the `StressTester`). -/
structure MainResult where
  finalState : RunState
  dispatchedTasks : Nat
  stats : Option Stats
deriving DecidableEq

/-- `main` (src/dos.py lines 182-225): parses the command line, loads the
config file, resolves each key, and if the resolved url is falsy logs an
error and returns before any dispatch; otherwise builds the `StressTester`
with `total_requests = threads * requests_per_thread` and runs it to
completion. -/
def main (cli : CliInput) (file : ConfigFile)
    (transport : Nat → Nat → TransportResult) : MainResult :=
  let args := parse_args cli
  let r := resolveConfig args file
  if urlFalsy r.url then
    { finalState := .Aborted, dispatchedTasks := 0, stats := none }
  else
    let total := r.threads * r.requests
    let cfg : RunConfig :=
      { url := r.url.getD "", totalAttempts := total,
        concurrencyLimit := r.threads, timeout := r.timeout,
        method := r.method, data := r.data, proxies := r.proxies,
        validateProxies := r.validate_proxies }
    { finalState := .Done, dispatchedTasks := total,
      stats := some (run cfg transport) }

/-! ### Report (`StressTester.report`) -/

/-- The counts of the final report (src/dos.py lines 149-157):
`successful = sum(self.stats['status_codes'].values())` and
`failed = self.total_requests - successful` (Python ints). -/
structure TestReport where
  totalRequests : Nat
  successful : Int
  failed : Int
deriving DecidableEq

/-- The count-deriving part of `StressTester.report` (src/dos.py lines
149-157). -/
def report (total : Nat) (s : Stats) : TestReport :=
  let successful : Int := sumCounts (statusHistogram s)
  { totalRequests := total, successful := successful,
    failed := (total : Int) - successful }

/-! ### Concurrency cap (`StressTester.run`, semaphore discipline)

`run` creates all `total_requests` tasks immediately; each task body is
`async with sem: await self.send_request(session)` with
`sem = asyncio.Semaphore(self.concurrency)`.  The transition system below
is the semaphore discipline: a queued task enters flight only by acquiring
a unit of the semaphore and returns the unit when it finishes. -/

/-- A scheduler state: how many tasks are still queued (created but not yet
admitted past the semaphore), in flight, and done, and how many semaphore
units are available. -/
structure SchedState where
  queued : Nat
  inFlight : Nat
  done : Nat
  avail : Nat
deriving DecidableEq

/-- The state when `run` has created all tasks (src/dos.py lines 137-145):
every task queued, none started, the semaphore at full capacity. -/
def initState (cfg : RunConfig) : SchedState :=
  { queued := cfg.totalAttempts, inFlight := 0, done := 0,
    avail := cfg.concurrencyLimit }

/-- One scheduler step: a queued task acquires an available semaphore unit
and enters flight, or an in-flight task finishes and releases its unit. -/
inductive SchedStep : SchedState → SchedState → Prop where
  | acquire (q i d a : Nat) :
      SchedStep ⟨q + 1, i, d, a + 1⟩ ⟨q, i + 1, d, a⟩
  | release (q i d a : Nat) :
      SchedStep ⟨q, i + 1, d, a⟩ ⟨q, i, d + 1, a + 1⟩

/-- States a run over `cfg` can reach from task creation, under any
interleaving. -/
inductive Reachable (cfg : RunConfig) : SchedState → Prop where
  | init : Reachable cfg (initState cfg)
  | step {s t : SchedState} : Reachable cfg s → SchedStep s t → Reachable cfg t

/-! ### Concrete instances used to exercise the theorems -/

/-- A small concrete configuration: 10 attempts under a concurrency limit
of 2. -/
def cfgTenTwo : RunConfig :=
  { url := "http://example.com", totalAttempts := 10, concurrencyLimit := 2,
    timeout := 5, method := "GET", data := "", proxies := [],
    validateProxies := false }

/-- A probe oracle for the spec's proxy-validation scenario: the probe
through `P_ok` returns HTTP 200, the probe through `P_bad` times out. -/
def probeOkBad (r : ProbeRequest) : ProbeResult :=
  if r.proxy = "P_ok" then .response 200 else .exn "timeout"

/-- A command line that supplies the target URL and omits every optional
flag. -/
def cliOmittingThreads : CliInput :=
  ⟨"http://target", none, none, none, none, none, none, none, false⟩

/-- A config file whose only key is `threads: 7`. -/
def fileWithThreads7 : ConfigFile := { emptyConfigFile with threads := some 7 }

/-- A command line whose positional url is the empty string and which omits
every optional flag. -/
def cliNoUrl : CliInput := ⟨"", none, none, none, none, none, none, none, false⟩

/-- A statistics snapshot with 3 recorded status codes and 5 recorded
errors. -/
def statsThreeFive : Stats := ⟨[200, 200, 200], ["a", "a", "a", "a", "a"], []⟩

/-! ### Helper lemmas -/

/-- The body of `send_request` returns normally on every transport result:
each of its three exception handlers swallows the exception it catches, and
together they cover every exception the HTTP execution can raise. -/
lemma send_request_body_always_ok (s : Stats) (r : TransportResult) :
    ∃ s', send_request_body s r = .ok s' := by
  cases r <;> exact ⟨_, rfl⟩

/-- When the first body call returns normally, the tenacity driver stops
after that single call, with no backoff sleep. -/
lemma tenacityDrive_of_ok {tries : Nat → TransportResult} {s s' : Stats}
    {n rem : Nat} (h : send_request_body s (tries n) = .ok s') :
    tenacityDrive tries s n (rem + 1) = (.ok s', 1, []) := by
  simp [tenacityDrive, h]

/-- The decorated `send_request` always makes exactly one body call and
returns its recorded state. -/
lemma send_request_eq (s : Stats) (tries : Nat → TransportResult) :
    ∃ s', send_request s tries = (.ok s', 1, []) ∧
      send_request_body s (tries 1) = .ok s' := by
  obtain ⟨s', h⟩ := send_request_body_always_ok s (tries 1)
  exact ⟨s', tenacityDrive_of_ok h, h⟩

/-- One body call records exactly one outcome: it grows the status-code
multiset or the error multiset by one element, never both. -/
lemma send_request_body_count {s s' : Stats} {r : TransportResult}
    (h : send_request_body s r = .ok s') :
    s'.status_codes.length + s'.errors.length =
      s.status_codes.length + s.errors.length + 1 := by
  cases r <;> simp only [send_request_body, Except.ok.injEq] at h <;>
    subst h <;> simp <;> omega

/-- The dispatch fold of `run` adds exactly one recorded outcome per task. -/
lemma dispatch_foldl_count (transport : Nat → Nat → TransportResult) :
    ∀ (l : List Nat) (s : Stats),
      ((l.foldl
        (fun s i =>
          match send_request s (transport i) with
          | (.ok s', _, _) => s'
          | (.error _, _, _) => s) s).status_codes.length +
       (l.foldl
        (fun s i =>
          match send_request s (transport i) with
          | (.ok s', _, _) => s'
          | (.error _, _, _) => s) s).errors.length) =
      s.status_codes.length + s.errors.length + l.length := by
  intro l
  induction l with
  | nil => intro s; simp
  | cons a t ih =>
      intro s
      obtain ⟨s', hsr, hb⟩ := send_request_eq s (transport a)
      have hcount := send_request_body_count hb
      simp only [List.foldl_cons, hsr]
      rw [ih s']
      simp [List.length_cons]
      omega

/-- Sum of the status-code histogram counts equals the number of recorded
status codes. -/
lemma sumCounts_statusHistogram (s : Stats) :
    sumCounts (statusHistogram s) = s.status_codes.length := by
  simpa [sumCounts, statusHistogram, List.map_map, Function.comp] using
    List.sum_map_count_dedup_eq_length s.status_codes

/-- Sum of the error histogram counts equals the number of recorded error
keys. -/
lemma sumCounts_errorHistogram (s : Stats) :
    sumCounts (errorHistogram s) = s.errors.length := by
  simpa [sumCounts, errorHistogram, List.map_map, Function.comp] using
    List.sum_map_count_dedup_eq_length s.errors

/-! ### Claim theorems -/

/-- C1: for every run over every configuration, the number of recorded
outcomes equals `RunConfig.totalAttempts`: the sum of all status-code counts
plus the sum of all error counts in the final snapshot is `totalAttempts`,
every attempt contributing exactly one outcome. -/
theorem outcome_conservation (cfg : RunConfig)
    (transport : Nat → Nat → TransportResult) :
    sumCounts (statusHistogram (run cfg transport)) +
      sumCounts (errorHistogram (run cfg transport)) = cfg.totalAttempts := by
  rw [sumCounts_statusHistogram, sumCounts_errorHistogram]
  unfold run
  rw [dispatch_foldl_count transport (List.range cfg.totalAttempts) emptyStats]
  simp [emptyStats]

/-- C2 (refuting the retry behaviour): `send_request` never retries any
transport-level error.  Every exception raised by the HTTP execution,
including an `aiohttp.ClientError` that is neither a timeout nor a
connection-establishment error, is swallowed by the body's own
`except Exception` handler and recorded as a failure at once, so the
tenacity decorator observes a normal return: exactly one transport try is
consumed and no backoff sleep ever happens.  In particular, on a transport
that raises a retryable client error on every try, the outcome is recorded
under the error's description after a single try. -/
theorem retryable_error_never_retried :
    (∀ (s : Stats) (tries : Nat → TransportResult),
        (send_request s tries).2.1 = 1 ∧ (send_request s tries).2.2 = []) ∧
    send_request emptyStats (fun _ => .raiseClientError "boom") =
      (.ok ⟨[], ["boom"], []⟩, 1, []) := by
  constructor
  · intro s tries
    obtain ⟨s', hsr, -⟩ := send_request_eq s tries
    rw [hsr]
    exact ⟨rfl, rfl⟩
  · rfl

/-- C3: an attempt in which an HTTP response is received, whatever its
status code, is a success: the status code's histogram count is incremented
as-is (all other codes unchanged), the measured latency is appended to the
latency sequence, and nothing is added to the error multiset. -/
theorem response_is_success (s : Stats) (code : Nat) (lat : ℚ) :
    send_request_body s (.response code lat) =
      .ok { s with latencies := s.latencies ++ [lat],
                   status_codes := s.status_codes ++ [code] } ∧
    (∀ c, (s.status_codes ++ [code]).count c =
      s.status_codes.count c + (if c = code then 1 else 0)) ∧
    (Stats.mk (s.status_codes ++ [code]) s.errors (s.latencies ++ [lat])).errors
      = s.errors := by
  refine ⟨rfl, ?_, rfl⟩
  intro c
  by_cases h : c = code <;> simp [h]

/-- In every reachable scheduler state, the in-flight tasks and the
available semaphore units together account for the whole semaphore
capacity. -/
lemma reachable_flight_avail {cfg : RunConfig} {s : SchedState}
    (h : Reachable cfg s) : s.inFlight + s.avail = cfg.concurrencyLimit := by
  induction h with
  | init => simp [initState]
  | step _ hstep ih =>
      cases hstep with
      | acquire q i d a => simp at ih ⊢; omega
      | release q i d a => simp at ih ⊢; omega

/-- C4: all `totalAttempts` tasks are created and queued immediately, yet in
every state any interleaving of semaphore acquisitions and releases can
reach, at most `concurrencyLimit` attempts are in flight. -/
theorem concurrency_cap (cfg : RunConfig) :
    (initState cfg).queued = cfg.totalAttempts ∧
    ∀ s : SchedState, Reachable cfg s → s.inFlight ≤ cfg.concurrencyLimit := by
  refine ⟨rfl, fun s h => ?_⟩
  have := reachable_flight_avail h
  omega

/-- Witness for C4: in the 10-attempt, limit-2 configuration, the state
after one task acquires the semaphore is reachable and respects the cap. -/
theorem concurrency_cap_witness :
    SchedState.inFlight ⟨9, 1, 0, 1⟩ ≤ cfgTenTwo.concurrencyLimit :=
  (concurrency_cap cfgTenTwo).2 ⟨9, 1, 0, 1⟩
    (Reachable.step Reachable.init (SchedStep.acquire 9 0 0 1))

/-- The two-sided conditional of `_percentile` is the clamped nearest-rank
lookup. -/
lemma percentileOf_eq_clamped (lats : List ℚ) (p : Nat)
    (h : lats.isEmpty = false) :
    percentileOf lats p =
      (sortLats lats).getD
        (min ((sortLats lats).length * p / 100) ((sortLats lats).length - 1))
        0 := by
  have hne : lats ≠ [] := by simpa [List.isEmpty_iff] using h
  have hn0 : 0 < (sortLats lats).length := by
    simpa [sortLats, List.length_insertionSort] using List.length_pos.mpr hne
  simp only [percentileOf, h, Bool.false_eq_true, if_false]
  by_cases hlt : (sortLats lats).length * p / 100 < (sortLats lats).length
  · rw [if_pos hlt, Nat.min_eq_left (by omega)]
  · rw [if_neg hlt, Nat.min_eq_right (by omega)]

/-- Entries of the ascending sort are monotone in the index. -/
lemma sortLats_getD_mono (lats : List ℚ) {i j : Nat} (hij : i ≤ j)
    (hj : j < (sortLats lats).length) :
    (sortLats lats).getD i 0 ≤ (sortLats lats).getD j 0 := by
  have hi : i < (sortLats lats).length := lt_of_le_of_lt hij hj
  rw [List.getD_eq_getElem _ 0 hi, List.getD_eq_getElem _ 0 hj]
  exact (List.sorted_insertionSort _ lats).rel_get_of_le (Fin.mk_le_mk.mpr hij)

/-- C5: for every percentile `p` (in particular 50, 90 and 99),
`_percentile` computes the nearest-rank percentile with no interpolation:
the latencies are sorted ascending, the index is `count * p / 100` rounded
down and clamped to `count - 1`, and the result is the value at that index;
with no recorded latencies the result is 0. -/
theorem percentile_nearest_rank (lats : List ℚ) (p : Nat) :
    percentileOf lats p = percentileSpec lats p := by
  by_cases h : lats.isEmpty
  · simp_all [percentileOf, percentileSpec]
  · have h' : lats.isEmpty = false := by simpa using h
    have hlen : (sortLats lats).length = lats.length := by
      simp [sortLats, List.length_insertionSort]
    rw [percentileOf_eq_clamped lats p h', hlen]
    simp [percentileSpec, h']

/-- C6: for every non-empty latency sequence the computed percentiles
satisfy `p50 ≤ p90 ≤ p99`, and on the empty sequence all three are 0. -/
theorem percentile_monotone :
    (∀ lats : List ℚ, lats ≠ [] →
      percentileOf lats 50 ≤ percentileOf lats 90 ∧
      percentileOf lats 90 ≤ percentileOf lats 99) ∧
    percentileOf [] 50 = 0 ∧ percentileOf [] 90 = 0 ∧
    percentileOf [] 99 = 0 := by
  refine ⟨?_, rfl, rfl, rfl⟩
  intro lats hne
  have h' : lats.isEmpty = false := by simpa [List.isEmpty_iff] using hne
  have hn0 : 0 < (sortLats lats).length := by
    simpa [sortLats, List.length_insertionSort] using List.length_pos.mpr hne
  have key : ∀ p q : Nat, p ≤ q →
      percentileOf lats p ≤ percentileOf lats q := by
    intro p q hpq
    rw [percentileOf_eq_clamped lats p h', percentileOf_eq_clamped lats q h']
    apply sortLats_getD_mono
    · exact min_le_min
        (Nat.div_le_div_right (Nat.mul_le_mul_left _ hpq)) le_rfl
    · exact lt_of_le_of_lt (min_le_right _ _) (by omega)
  exact ⟨key 50 90 (by norm_num), key 90 99 (by norm_num)⟩

/-- Witness for C6 on the concrete latency list `[3, 1, 2]`. -/
theorem percentile_monotone_witness :
    percentileOf [3, 1, 2] 50 ≤ percentileOf [3, 1, 2] 90 ∧
    percentileOf [3, 1, 2] 90 ≤ percentileOf [3, 1, 2] 99 :=
  percentile_monotone.1 [3, 1, 2] (by simp)

/-- The append-if fold of `validate_proxies_async` is a filter. -/
lemma validate_foldl_filter (probe : ProbeRequest → ProbeResult) :
    ∀ (l : List String) (acc : List String),
      (l.map (fun p => (p, validate_proxy probe p))).foldl
        (fun acc pr => if pr.2 then acc ++ [pr.1] else acc) acc
      = acc ++ l.filter (fun p => validate_proxy probe p) := by
  intro l
  induction l with
  | nil => intro acc; simp
  | cons a t ih =>
      intro acc
      by_cases h : validate_proxy probe a <;>
        simp [h, ih, List.filter_cons, List.append_assoc]

/-- C7: each candidate proxy is probed by a single GET with the fixed
10-second timeout; a proxy validates exactly when its probe returns
HTTP 200 (any non-200 status or exception invalidates it, with no retry);
`validate_proxies_async` returns exactly the valid subset of the
candidates; in particular, for `[P_ok, P_bad]` where the probe through
`P_ok` returns 200 and the probe through `P_bad` times out, the result is
exactly `[P_ok]`. -/
theorem proxy_validation :
    (∀ proxy : String, (probeRequest proxy).timeout = 10) ∧
    (∀ (probe : ProbeRequest → ProbeResult) (proxy : String),
        validate_proxy probe proxy = true ↔
          probe (probeRequest proxy) = ProbeResult.response 200) ∧
    (∀ (probe : ProbeRequest → ProbeResult) (proxies : List String),
        validate_proxies_async probe proxies =
          proxies.filter (fun p => validate_proxy probe p)) ∧
    validate_proxies_async probeOkBad ["P_ok", "P_bad"] = ["P_ok"] := by
  refine ⟨fun _ => rfl, ?_, ?_, by decide⟩
  · intro probe proxy
    unfold validate_proxy
    cases hp : probe (probeRequest proxy) with
    | response s => simp
    | exn d => simp
  · intro probe proxies
    unfold validate_proxies_async
    simpa using validate_foldl_filter probe proxies []

/-- C8 counterexample: with a command line that omits `--threads` and a
config file carrying `threads: 7`, the code resolves `threads` to the
argparse default 100 (the truthy default shadows the config file), while
the claim's resolution rule yields the config value 7. -/
theorem config_precedence_counterexample :
    (resolveConfig (parse_args cliOmittingThreads) fileWithThreads7).threads
      = 100 ∧
    specResolveThreads cliOmittingThreads fileWithThreads7 = 7 ∧
    ¬ (resolveConfig (parse_args cliOmittingThreads) fileWithThreads7).threads
        = specResolveThreads cliOmittingThreads fileWithThreads7 := by
  refine ⟨rfl, rfl, by decide⟩

/-- C8 amended: resolution applies Python truthiness to the argparse
result.  A config-file value is used only when the argparse-produced value
is falsy: for `threads`, `requests`, `timeout`, `method` and `log_file` the
truthy argparse default wins whenever the flag is omitted, so their
config-file values are ignored; a supplied truthy CLI value always wins;
`data`, `proxies` and `validate_proxies` have falsy argparse defaults, so
omitting them does fall back to the config file (then to the documented
default); `url` is a required CLI positional whose config value is
consulted only when the CLI url is the empty string. -/
theorem config_resolution_truthiness (cli : CliInput) (cfg : ConfigFile) :
    (cli.threads = none →
      (resolveConfig (parse_args cli) cfg).threads = 100) ∧
    (∀ t, cli.threads = some t → 0 < t →
      (resolveConfig (parse_args cli) cfg).threads = t) ∧
    (cli.requests = none →
      (resolveConfig (parse_args cli) cfg).requests = 1000) ∧
    (∀ t, cli.requests = some t → 0 < t →
      (resolveConfig (parse_args cli) cfg).requests = t) ∧
    (cli.timeout = none →
      (resolveConfig (parse_args cli) cfg).timeout = 5) ∧
    (∀ t, cli.timeout = some t → 0 < t →
      (resolveConfig (parse_args cli) cfg).timeout = t) ∧
    (cli.method = none →
      (resolveConfig (parse_args cli) cfg).method = "GET") ∧
    (∀ m, cli.method = some m → m ≠ "" →
      (resolveConfig (parse_args cli) cfg).method = m) ∧
    (cli.log_file = none →
      (resolveConfig (parse_args cli) cfg).log_file = "stress_test.log") ∧
    (∀ f, cli.log_file = some f → f ≠ "" →
      (resolveConfig (parse_args cli) cfg).log_file = f) ∧
    (cli.data = none →
      (resolveConfig (parse_args cli) cfg).data = cfg.data.getD "") ∧
    (∀ d, cli.data = some d → d ≠ "" →
      (resolveConfig (parse_args cli) cfg).data = d) ∧
    (cli.proxies = none →
      (resolveConfig (parse_args cli) cfg).proxies = cfg.proxies.getD []) ∧
    (∀ ps, cli.proxies = some ps → ps ≠ [] →
      (resolveConfig (parse_args cli) cfg).proxies = ps) ∧
    (cli.validate_proxies = true →
      (resolveConfig (parse_args cli) cfg).validate_proxies = true) ∧
    (cli.validate_proxies = false →
      (resolveConfig (parse_args cli) cfg).validate_proxies =
        cfg.validate_proxies.getD false) ∧
    (cli.url ≠ "" →
      (resolveConfig (parse_args cli) cfg).url = some cli.url) ∧
    (cli.url = "" →
      (resolveConfig (parse_args cli) cfg).url = cfg.url) := by
  refine ⟨?_, ?_, ?_, ?_, ?_, ?_, ?_, ?_, ?_, ?_, ?_, ?_, ?_, ?_, ?_, ?_,
    ?_, ?_⟩
  · intro h; simp [resolveConfig, parse_args, pyOrNat, h]
  · intro t h ht
    have ht' : t ≠ 0 := Nat.pos_iff_ne_zero.mp ht
    simp [resolveConfig, parse_args, pyOrNat, h, ht']
  · intro h; simp [resolveConfig, parse_args, pyOrNat, h]
  · intro t h ht
    have ht' : t ≠ 0 := Nat.pos_iff_ne_zero.mp ht
    simp [resolveConfig, parse_args, pyOrNat, h, ht']
  · intro h; simp [resolveConfig, parse_args, pyOrNat, h]
  · intro t h ht
    have ht' : t ≠ 0 := Nat.pos_iff_ne_zero.mp ht
    simp [resolveConfig, parse_args, pyOrNat, h, ht']
  · intro h; simp [resolveConfig, parse_args, pyOrStr, h]
  · intro m h hm; simp [resolveConfig, parse_args, pyOrStr, h, hm]
  · intro h; simp [resolveConfig, parse_args, pyOrStr, h]
  · intro f h hf; simp [resolveConfig, parse_args, pyOrStr, h, hf]
  · intro h; simp [resolveConfig, parse_args, pyOrStr, h]
  · intro d h hd; simp [resolveConfig, parse_args, pyOrStr, h, hd]
  · intro h; simp [resolveConfig, parse_args, pyOrList, h]
  · intro ps h hps; simp [resolveConfig, parse_args, pyOrList, h, hps]
  · intro h; simp [resolveConfig, parse_args, pyOrBool, h]
  · intro h; simp [resolveConfig, parse_args, pyOrBool, h]
  · intro h; simp [resolveConfig, parse_args, resolveUrl, h]
  · intro h; simp [resolveConfig, parse_args, resolveUrl, h]

/-- Witness for C8's amended claim: with `--threads` omitted, the resolved
thread count is the argparse default 100 even though the config file says
7. -/
theorem config_resolution_truthiness_witness :
    (resolveConfig (parse_args cliOmittingThreads) fileWithThreads7).threads
      = 100 := by
  have h := config_resolution_truthiness cliOmittingThreads fileWithThreads7
  exact h.1 rfl

/-- C9: when configuration resolution yields no target URL (the CLI url is
empty and the config file has none), `main` logs a fatal configuration
error and returns before any dispatch: zero dispatcher tasks are created,
no statistics exist, and the run ends `Aborted`. -/
theorem missing_url_aborts (cli : CliInput) (file : ConfigFile)
    (transport : Nat → Nat → TransportResult)
    (hcli : cli.url = "") (hfile : file.url = none) :
    main cli file transport =
      { finalState := .Aborted, dispatchedTasks := 0, stats := none } := by
  simp [main, resolveConfig, resolveUrl, parse_args, urlFalsy, hcli, hfile]

/-- Witness for C9 on a concrete empty-url command line and empty config
file. -/
theorem missing_url_aborts_witness :
    main cliNoUrl emptyConfigFile (fun _ _ => TransportResult.raiseTimeout) =
      { finalState := .Aborted, dispatchedTasks := 0, stats := none } :=
  missing_url_aborts cliNoUrl emptyConfigFile _ rfl rfl

/-- C10: the report derives the failed count by subtraction,
`failed = totalAttempts - sum(statusCodeCounts)`, never reading the error
histogram, so `successful + failed = totalAttempts` holds by construction;
on the concrete snapshot with 3 recorded statuses and 5 recorded errors and
`totalAttempts = 10`, the reported failed count is 7, differing from the
error-histogram sum 5, and the totals still add up. -/
theorem failed_by_subtraction :
    (∀ (total : Nat) (s : Stats),
        (report total s).failed =
          (total : Int) - sumCounts (statusHistogram s) ∧
        (report total s).successful + (report total s).failed = total) ∧
    (report 10 statsThreeFive).failed = 7 ∧
    sumCounts (errorHistogram statsThreeFive) = 5 ∧
    (report 10 statsThreeFive).failed ≠
      (sumCounts (errorHistogram statsThreeFive) : Int) ∧
    (report 10 statsThreeFive).successful +
      (report 10 statsThreeFive).failed = 10 := by
  refine ⟨fun total s => ⟨rfl, ?_⟩, by decide, by decide, by decide, by decide⟩
  simp only [report]
  ring

end DoS
